import Mathlib

/-!
Shallow embedding of the tenant-provisioning handler
(`src/functions/create.py`, `lambda_handler`) of the rag-application
repository, together with proofs of the specification claims.

Modelling conventions:
* Python strings are Lean `String`s.  The Python character-level
  operations used by the handler (`str.lower`, `str.strip`,
  `str.isalnum`) are Unicode-aware in CPython; they are modelled here
  faithfully for all code points up to U+00FF (Latin-1), which covers
  every input appearing in the theorems below.  Code points above
  U+00FF are mapped to themselves by `pyLowerChar`, are treated as
  non-space by `pyIsSpaceChar` and as non-alphanumeric by
  `pyIsAlnumChar` (with the single extra point U+03BC, the image of
  U+00B5 under `str.lower`, treated as alphanumeric as CPython does).
* JSON values (`json.loads` results and `json.dumps` arguments) are an
  explicit inductive `Json`; a parsed JSON object is an association
  list in source order, and subscripting takes the last binding for a
  key, as a CPython `dict` built by `json.loads` does.
* Every call to an external collaborator (S3, OpenSearch, Bedrock) is
  recorded in an event trace `List ExtCall`; the outcome of each call
  is supplied by a `World` record (each operation is invoked at most
  once per request, so an outcome value per operation suffices).
  `Except.error msg` plays the role of a raised `ClientError` (or, for
  the OpenSearch step, any exception) whose `str()` is `msg`.
* `os.environ` is the `Env` record of optional values; a missing
  variable raises `KeyError`, which the handler's `except KeyError`
  clause turns into an HTTP 400 response whose message is
  `"Missing required field: " ++ str(e)`, where `str` of a `KeyError`
  carries the key in single quotes.
* The exact CPython wording of a `TypeError` / `AttributeError`
  message (version-dependent, and inspected by no claim) is abstracted
  by the constants `typeErrorMsg` / `attributeErrorMsg`; only the fact
  that such exceptions reach the generic `except Exception` handler
  (HTTP 500) matters.
* `datetime.now()` is an input parameter `now`.
-/

namespace RagApp

/-- JSON values, as produced by `json.loads` / consumed by `json.dumps`. -/
inductive Json where
  | null
  | bool (b : Bool)
  | num (n : Int)
  | str (s : String)
  | arr (xs : List Json)
  | obj (kvs : List (String × Json))
deriving Repr

/-- Summary entry of `bedrock_client.list_knowledge_bases()`:
the two fields the handler reads. -/
structure KBSummary where
  name : String
  knowledgeBaseId : String
deriving Repr, DecidableEq

/-- One recorded call to an external collaborator, with the arguments
the handler passes (fields not derived from the request are omitted
when constant). -/
inductive ExtCall where
  | listKnowledgeBases
  | putObject (bucket key content contentType : String)
  | indexExists (index : String)
  | createIndex (index : String) (body : Json)
  | createKnowledgeBase (name description roleArn embeddingModelArn
      collectionArn vectorIndexName : String)
  | createDataSource (knowledgeBaseId name description bucketArn : String)
      (inclusionPrefixes : List String)
  | deleteKnowledgeBase (knowledgeBaseId : String)
deriving Repr

/-- Outcomes of the (at most one) invocation of each external
operation during a single request.  `Except.error msg` models a raised
exception whose `str()` is `msg`. -/
structure World where
  listKnowledgeBases : Except String (List KBSummary)
  putObject : Except String Unit
  indexExists : Except String Bool
  createIndex : Except String Unit
  createKnowledgeBase : Except String String
  createDataSource : Except String String
  deleteKnowledgeBase : Except String Unit
deriving Repr

/-- The six environment variables the handler reads; `none` models an
absent variable (`os.environ[...]` raises `KeyError`). -/
structure Env where
  opensearchCollectionArn : Option String
  opensearchCollectionEndpoint : Option String
  s3BucketName : Option String
  s3BucketArn : Option String
  bedrockKbRoleArn : Option String
  region : Option String
deriving Repr, DecidableEq

/-- The six configuration values once all reads succeeded. -/
structure EnvVals where
  opensearchCollectionArn : String
  opensearchCollectionEndpoint : String
  s3BucketName : String
  s3BucketArn : String
  bedrockKbRoleArn : String
  region : String
deriving Repr, DecidableEq

/-- Reads the environment variables in source order (create.py lines
39-44); the first absent one raises `KeyError` with its name. -/
def Env.read (env : Env) : Except String EnvVals :=
  match env.opensearchCollectionArn with
  | none => .error "OPENSEARCH_COLLECTION_ARN"
  | some a =>
    match env.opensearchCollectionEndpoint with
    | none => .error "OPENSEARCH_COLLECTION_ENDPOINT"
    | some b =>
      match env.s3BucketName with
      | none => .error "S3_BUCKET_NAME"
      | some c =>
        match env.s3BucketArn with
        | none => .error "S3_BUCKET_ARN"
        | some d =>
          match env.bedrockKbRoleArn with
          | none => .error "BEDROCK_KB_ROLE_ARN"
          | some e =>
            match env.region with
            | none => .error "REGION"
            | some f =>
              .ok { opensearchCollectionArn := a,
                    opensearchCollectionEndpoint := b,
                    s3BucketName := c, s3BucketArn := d,
                    bedrockKbRoleArn := e, region := f }

/-- CPython `str.lower`, per character, faithful for code points up to
U+00FF (ASCII `A`-`Z` and Latin-1 `À`-`Þ` except `×` shift by 32;
`µ` U+00B5 maps to `μ` U+03BC; everything else in range is fixed).
Code points above U+00FF are mapped to themselves (not used by any
theorem below). -/
def pyLowerChar (c : Char) : Char :=
  if 65 ≤ c.toNat ∧ c.toNat ≤ 90 then Char.ofNat (c.toNat + 32)
  else if (0xC0 ≤ c.toNat ∧ c.toNat ≤ 0xD6) ∨ (0xD8 ≤ c.toNat ∧ c.toNat ≤ 0xDE) then
    Char.ofNat (c.toNat + 32)
  else if c.toNat = 0xB5 then Char.ofNat 0x3BC
  else c

/-- CPython `str.isspace` per character, faithful for code points up
to U+00FF: tab through carriage return, FS/GS/RS/US, space, NEL
U+0085, NBSP U+00A0.  Higher code points are treated as non-space. -/
def pyIsSpaceChar (c : Char) : Bool :=
  [9, 10, 11, 12, 13, 28, 29, 30, 31, 32, 0x85, 0xA0].contains c.toNat

/-- CPython per-character alphanumericity (`isalpha or isdecimal or
isdigit or isnumeric`), faithful for code points up to U+00FF: ASCII
digits and letters; `ª ² ³ µ ¹ º ¼ ½ ¾`; `À`-`Ö`, `Ø`-`ö`, `ø`-`ÿ`.
U+03BC (`μ`, the lower-case image of `µ`) is also alphanumeric.
Higher code points are treated as non-alphanumeric. -/
def pyIsAlnumChar (c : Char) : Bool :=
  let n := c.toNat
  (48 ≤ n && n ≤ 57) || (65 ≤ n && n ≤ 90) || (97 ≤ n && n ≤ 122) ||
  n == 0xAA || n == 0xB2 || n == 0xB3 || n == 0xB5 || n == 0xB9 ||
  n == 0xBA || n == 0xBC || n == 0xBD || n == 0xBE ||
  (0xC0 ≤ n && n ≤ 0xD6) || (0xD8 ≤ n && n ≤ 0xF6) || (0xF8 ≤ n && n ≤ 0xFF) ||
  n == 0x3BC

/-- CPython `str.lower`. -/
def pyLower (s : String) : String := ⟨s.data.map pyLowerChar⟩

/-- CPython `str.strip()`: drop leading and trailing whitespace. -/
def pyStrip (s : String) : String :=
  ⟨((s.data.dropWhile pyIsSpaceChar).reverse.dropWhile pyIsSpaceChar).reverse⟩

/-- CPython `str.isalnum`: non-empty and every character
alphanumeric. -/
def pyIsAlnum (s : String) : Bool :=
  !s.data.isEmpty && s.data.all pyIsAlnumChar

/-- `s.replace('-', '').replace('_', '')` (create.py line 29): since
both replacements delete single characters, this is a filter. -/
def stripHyphensUnderscores (s : String) : String :=
  ⟨s.data.filter (fun c => !(c == '-') && !(c == '_'))⟩

/-- The request body as seen by the handler: the `'body'` key may be
absent from the event (`KeyError`), its value may fail `json.loads`
(`JSONDecodeError`), or it parses to a `Json` value. -/
inductive BodyParse where
  | missing
  | invalid
  | parsed (j : Json)
deriving Repr

/-- Result of Python subscripting `j['k']`: the value, a `KeyError`,
or a `TypeError` (non-dict operand). -/
inductive GetItemResult where
  | ok (v : Json)
  | keyErr (k : String)
  | typeErr
deriving Repr

/-- Python `body[k]` where `body = json.loads(...)`: on a JSON object
the last binding for `k` wins (CPython dict semantics for duplicate
keys); on any non-object value a `TypeError` is raised. -/
def jsonGetItem (j : Json) (k : String) : GetItemResult :=
  match j with
  | .obj kvs =>
    match kvs.reverse.find? (fun p => p.fst == k) with
    | some p => .ok p.snd
    | none => .keyErr k
  | _ => .typeErr

/-- The constant response headers (create.py lines 9-14). -/
def corsHeaders : List (String × String) :=
  [("Content-Type", "application/json"),
   ("Access-Control-Allow-Origin", "*"),
   ("Access-Control-Allow-Methods", "POST"),
   ("Access-Control-Allow-Headers", "Content-Type, Authorization")]

/-- An HTTP response value: status code, headers, JSON body (the
Python code passes the body through `json.dumps`; the body is kept
structured here). -/
structure Response where
  statusCode : Nat
  headers : List (String × String)
  body : Json
deriving Repr

/-- A response with an `error`-message body. -/
def errorResponse (code : Nat) (msg : String) : Response :=
  { statusCode := code, headers := corsHeaders,
    body := .obj [("error", .str msg)] }

/-- Placeholder for the version-dependent `str()` of the `TypeError`
raised by subscripting a non-dict; no claim inspects this text. -/
def typeErrorMsg : String := "TypeError"

/-- Placeholder for the version-dependent `str()` of the
`AttributeError` raised by `.lower()` on a non-string; no claim
inspects this text. -/
def attributeErrorMsg : String := "AttributeError"

/-- The fixed OpenSearch index schema (create.py lines 112-140). -/
def indexSchema : Json :=
  .obj [("settings", .obj
          [("index.knn", .bool true),
           ("number_of_shards", .num 1),
           ("number_of_replicas", .num 0)]),
        ("mappings", .obj
          [("properties", .obj
            [("vector", .obj
               [("type", .str "knn_vector"),
                ("dimension", .num 1536),
                ("method", .obj
                  [("name", .str "hnsw"),
                   ("engine", .str "faiss"),
                   ("parameters", .obj
                     [("ef_construction", .num 512),
                      ("m", .num 16)])])]),
             ("text", .obj [("type", .str "text")]),
             ("metadata", .obj [("type", .str "text")])])])]

/-- Step 1's duplicate check (create.py lines 72-85): the first listed
knowledge base named `kb-<client_id>`, if any; a listing failure is
only logged ("Warning checking existing KBs"), yielding no hit. -/
def dupHit (w : World) (client_id : String) : Option KBSummary :=
  match w.listKnowledgeBases with
  | .ok summaries => summaries.find? (fun kb => kb.name == "kb-" ++ client_id)
  | .error _ => none

/-- The provisioning step sequence (create.py lines 72-260), entered
once validation passed and all environment variables were read.
Returns the HTTP response and the trace of external calls, in order. -/
def provisionSteps (cfg : EnvVals) (w : World) (client_id now : String) :
    Response × List ExtCall :=
  -- Step 1: duplicate check (non-fatal on listing failure).
  let tr1 : List ExtCall := [.listKnowledgeBases]
  match dupHit w client_id with
  | some kb =>
    ({ statusCode := 409, headers := corsHeaders,
       body := .obj
         [("error", .str ("Knowledge Base for client \"" ++ client_id
             ++ "\" already exists")),
          ("existing_kb_id", .str kb.knowledgeBaseId)] }, tr1)
  | none =>
    -- Step 2: storage namespace marker object.
    let folder_key := client_id ++ "/"
    let readme_content := "# Knowledge Base para " ++ client_id
    let tr2 := tr1 ++ [.putObject cfg.s3BucketName (folder_key ++ "README.md")
                        readme_content "text/markdown"]
    match w.putObject with
    | .error e => (errorResponse 500 ("Failed to create S3 folder: " ++ e), tr2)
    | .ok _ =>
      -- Step 3: index creation, skipped when the index exists.
      let index_name := client_id ++ "_index"
      let tr3 := tr2 ++ [.indexExists index_name]
      let idxOutcome : Except String (List ExtCall) :=
        match w.indexExists with
        | .error e => .error e
        | .ok true => .ok tr3  -- "already exists, skipping creation"
        | .ok false =>
          match w.createIndex with
          | .error e => .error e
          | .ok _ => .ok (tr3 ++ [.createIndex index_name indexSchema])
      match idxOutcome with
      | .error e =>
        -- trace: the failing call was recorded before its outcome
        let trFail := match w.indexExists with
          | .ok false => tr3 ++ [.createIndex index_name indexSchema]
          | _ => tr3
        (errorResponse 500 ("Failed to create OpenSearch index: " ++ e), trFail)
      | .ok trIdx =>
        -- Step 4: knowledge-base creation.
        let kb_name := "kb-" ++ client_id
        let trKB := trIdx ++ [.createKnowledgeBase kb_name
          ("Knowledge Base para cliente " ++ client_id ++ " - RAG Multi-tenant Demo")
          cfg.bedrockKbRoleArn
          "arn:aws:bedrock:us-east-1::foundation-model/amazon.titan-embed-text-v1"
          cfg.opensearchCollectionArn (client_id ++ "_index")]
        match w.createKnowledgeBase with
        | .error e =>
          (errorResponse 500 ("Failed to create Knowledge Base: " ++ e), trKB)
        | .ok kb_id =>
          -- Step 5: data-source registration, with compensating delete.
          let trDS := trKB ++ [.createDataSource kb_id
            ("s3-datasource-" ++ client_id)
            ("S3 data source para " ++ client_id ++ " - carpeta " ++ folder_key)
            cfg.s3BucketArn [folder_key]]
          match w.createDataSource with
          | .error e =>
            -- cleanup: delete the KB; its outcome is only logged
            let trClean := trDS ++ [.deleteKnowledgeBase kb_id]
            (errorResponse 500 ("Failed to create Data Source: " ++ e), trClean)
          | .ok data_source_id =>
            let s3_console_url :=
              "https://s3.console.aws.amazon.com/s3/buckets/" ++ cfg.s3BucketName
                ++ "?region=" ++ cfg.region ++ "&prefix=" ++ folder_key
            ({ statusCode := 200, headers := corsHeaders,
               body := .obj
                 [("success", .bool true),
                  ("message", .str ("Knowledge Base successfully created for client "
                      ++ client_id)),
                  ("kb_id", .str kb_id),
                  ("data_source_id", .str data_source_id),
                  ("client_id", .str client_id),
                  ("s3_bucket", .str cfg.s3BucketName),
                  ("s3_folder", .str folder_key),
                  ("s3_console_url", .str s3_console_url),
                  ("opensearch_index", .str (client_id ++ "_index")),
                  ("status", .str "created"),
                  ("timestamp", .str now),
                  ("next_steps", .arr
                    [.str ("1. Upload documents to: s3://" ++ cfg.s3BucketName
                        ++ "/" ++ folder_key),
                     .str ("2. Or use AWS Console: " ++ s3_console_url),
                     .str "3. Use POST /admin/sync-kb with kb_id to process documents",
                     .str "4. Query your knowledge base with POST /query"])] },
             trDS)

/-- The full handler (create.py `lambda_handler`): body parsing and
`client_id` extraction, validation, environment reads, then the step
sequence; the outer `except` clauses map `JSONDecodeError` and
`KeyError` to 400 and any other exception to 500. -/
def lambda_handler (env : Env) (w : World) (evtBody : BodyParse) (now : String) :
    Response × List ExtCall :=
  match evtBody with
  | .missing => (errorResponse 400 "Missing required field: 'body'", [])
  | .invalid => (errorResponse 400 "Invalid JSON in request body", [])
  | .parsed j =>
    match jsonGetItem j "client_id" with
    | .keyErr k => (errorResponse 400 ("Missing required field: '" ++ k ++ "'"), [])
    | .typeErr => (errorResponse 500 ("Internal server error: " ++ typeErrorMsg), [])
    | .ok v =>
      match v with
      | .str raw =>
        let client_id := pyStrip (pyLower raw)
        if client_id == "" || client_id.length < 2 then
          (errorResponse 400 "client_id must be at least 2 characters long", [])
        else if !(pyIsAlnum (stripHyphensUnderscores client_id)) then
          (errorResponse 400
            "client_id can only contain letters, numbers, hyphens and underscores", [])
        else
          match Env.read env with
          | .error name =>
            (errorResponse 400 ("Missing required field: '" ++ name ++ "'"), [])
          | .ok cfg => provisionSteps cfg w client_id now
      | _ => (errorResponse 500 ("Internal server error: " ++ attributeErrorMsg), [])

/-! Concrete fixtures used by witnesses and counterexamples. -/

/-- An environment with all six variables set. -/
def fullEnv : Env :=
  { opensearchCollectionArn := some "arn:aws:aoss:us-east-1:123456789012:collection/abc",
    opensearchCollectionEndpoint := some "https://abc.us-east-1.aoss.amazonaws.com",
    s3BucketName := some "rag-documents",
    s3BucketArn := some "arn:aws:s3:::rag-documents",
    bedrockKbRoleArn := some "arn:aws:iam::123456789012:role/kb-role",
    region := some "us-east-1" }

/-- The configuration read from `fullEnv`. -/
def fullEnvVals : EnvVals :=
  { opensearchCollectionArn := "arn:aws:aoss:us-east-1:123456789012:collection/abc",
    opensearchCollectionEndpoint := "https://abc.us-east-1.aoss.amazonaws.com",
    s3BucketName := "rag-documents",
    s3BucketArn := "arn:aws:s3:::rag-documents",
    bedrockKbRoleArn := "arn:aws:iam::123456789012:role/kb-role",
    region := "us-east-1" }

/-- `fullEnv` with `OPENSEARCH_COLLECTION_ARN` absent. -/
def envMissingCollectionArn : Env :=
  { fullEnv with opensearchCollectionArn := none }

/-- A world in which every external call succeeds and the index does
not yet exist. -/
def okWorld : World :=
  { listKnowledgeBases := .ok [],
    putObject := .ok (),
    indexExists := .ok false,
    createIndex := .ok (),
    createKnowledgeBase := .ok "KB123XYZ",
    createDataSource := .ok "DS456XYZ",
    deleteKnowledgeBase := .ok () }

/-- A world in which data-source creation fails after everything else
succeeded (and the index already existed). -/
def dsFailWorld : World :=
  { okWorld with indexExists := .ok true, createDataSource := .error "boom" }

/-- A world already holding a knowledge base named `kb-acme`. -/
def dupWorld : World :=
  { okWorld with listKnowledgeBases := .ok [⟨"kb-acme", "KB-OLD"⟩] }

/-- A world in which the duplicate-check listing fails. -/
def listFailWorld : World :=
  { okWorld with listKnowledgeBases := .error "AccessDenied" }

/-- A world in which the index already exists. -/
def idxExistsWorld : World :=
  { okWorld with indexExists := .ok true }

/-! Helper lemmas. -/

/-- `Char.ofNat` is the identity on code points below the surrogate
range. -/
theorem toNat_charOfNat_of_lt {n : Nat} (h : n < 0xD800) :
    (Char.ofNat n).toNat = n := by
  have hval : n.isValidChar := Or.inl h
  rw [Char.ofNat, dif_pos hval]
  rfl

/-- `pyLowerChar` never returns an upper-case ASCII letter (CPython
`str.lower` output contains none). -/
theorem pyLowerChar_not_upper (c : Char) :
    ¬ (65 ≤ (pyLowerChar c).toNat ∧ (pyLowerChar c).toNat ≤ 90) := by
  unfold pyLowerChar
  split
  next h => rw [toNat_charOfNat_of_lt (by omega)]; omega
  next h1 =>
    split
    next h => rw [toNat_charOfNat_of_lt (by omega)]; omega
    next h2 =>
      split
      next h => rw [toNat_charOfNat_of_lt (by omega)]; omega
      next h3 => exact h1

/-- Characters of a stripped string are characters of the string. -/
theorem mem_of_mem_pyStrip {c : Char} {s : String} (h : c ∈ (pyStrip s).data) :
    c ∈ s.data := by
  unfold pyStrip at h
  rw [show (String.mk
      (((s.data.dropWhile pyIsSpaceChar).reverse.dropWhile pyIsSpaceChar).reverse)).data
      = ((s.data.dropWhile pyIsSpaceChar).reverse.dropWhile pyIsSpaceChar).reverse from rfl,
    List.mem_reverse] at h
  have h2 := (List.dropWhile_sublist (p := pyIsSpaceChar)
    (l := (s.data.dropWhile pyIsSpaceChar).reverse)).subset h
  rw [List.mem_reverse] at h2
  exact (List.dropWhile_sublist (p := pyIsSpaceChar) (l := s.data)).subset h2

/-- Every character of a lower-cased string is the image of a source
character under `pyLowerChar`. -/
theorem mem_pyLower {c : Char} {s : String} (h : c ∈ (pyLower s).data) :
    ∃ c₀ ∈ s.data, pyLowerChar c₀ = c := by
  unfold pyLower at h
  rw [show (String.mk (s.data.map pyLowerChar)).data = s.data.map pyLowerChar from rfl,
    List.mem_map] at h
  exact h

/-- An ASCII character that is not a lower-case letter, not an
upper-case letter and not a digit is not alphanumeric for CPython. -/
theorem pyIsAlnumChar_eq_false (c : Char) (h128 : c.toNat < 128)
    (hup : ¬ (65 ≤ c.toNat ∧ c.toNat ≤ 90))
    (hlo : ¬ (97 ≤ c.toNat ∧ c.toNat ≤ 122))
    (hdig : ¬ (48 ≤ c.toNat ∧ c.toNat ≤ 57)) :
    pyIsAlnumChar c = false := by
  unfold pyIsAlnumChar
  simp only [Bool.or_eq_false_iff, Bool.and_eq_false_iff,
    decide_eq_false_iff_not, beq_eq_false_iff_ne, ne_eq]
  omega

/-- Reduction of the handler to the step sequence for a request that
passes validation with all configuration present. -/
theorem handler_valid_run (env : Env) (cfg : EnvVals) (w : World) (raw now : String)
    (hlen : 2 ≤ (pyStrip (pyLower raw)).length)
    (halnum : pyIsAlnum (stripHyphensUnderscores (pyStrip (pyLower raw))) = true)
    (henv : Env.read env = .ok cfg) :
    lambda_handler env w (.parsed (.obj [("client_id", .str raw)])) now
      = provisionSteps cfg w (pyStrip (pyLower raw)) now := by
  have hne : (pyStrip (pyLower raw) == "") = false := by
    rw [beq_eq_false_iff_ne]
    intro h
    rw [h] at hlen
    exact absurd hlen (by decide)
  have hlt : decide ((pyStrip (pyLower raw)).length < 2) = false := by
    simp only [decide_eq_false_iff_not]
    omega
  simp [lambda_handler, jsonGetItem, hne, hlt, halnum, henv]

/-- With no duplicate hit, the storage-marker write is attempted and
recorded in the trace, whatever the later outcomes. -/
theorem putObject_mem_trace (cfg : EnvVals) (w : World) (cid now : String)
    (hdup : dupHit w cid = none) :
    ExtCall.putObject cfg.s3BucketName ((cid ++ "/") ++ "README.md")
      ("# Knowledge Base para " ++ cid) "text/markdown"
      ∈ (provisionSteps cfg w cid now).2 := by
  unfold provisionSteps
  rw [hdup]
  cases hpo : w.putObject
  case error => simp
  case ok =>
    cases hie : w.indexExists
    case error => simp
    case ok b =>
      cases b
      case false =>
        cases hci : w.createIndex
        case error => simp
        case ok =>
          cases hck : w.createKnowledgeBase
          case error => simp
          case ok =>
            cases hcd : w.createDataSource <;> simp
      case true =>
        cases hck : w.createKnowledgeBase
        case error => simp
        case ok =>
          cases hcd : w.createDataSource <;> simp

/-- Step-sequence behaviour when data-source registration fails after
knowledge-base creation succeeded: the 500 data-source error is
returned and the compensating delete of the created knowledge base is
the last recorded call. -/
theorem provisionSteps_ds_failure (cfg : EnvVals) (w : World)
    (cid now kb_id msg : String)
    (hdup : dupHit w cid = none)
    (hput : w.putObject = .ok ())
    (hidx : w.indexExists = .ok true
      ∨ (w.indexExists = .ok false ∧ w.createIndex = .ok ()))
    (hkb : w.createKnowledgeBase = .ok kb_id)
    (hds : w.createDataSource = .error msg) :
    (provisionSteps cfg w cid now).1
        = errorResponse 500 ("Failed to create Data Source: " ++ msg)
    ∧ (provisionSteps cfg w cid now).2.getLast?
        = some (.deleteKnowledgeBase kb_id) := by
  rcases hidx with h | ⟨h1, h2⟩
  · constructor
    · simp [provisionSteps, hdup, hput, h, hkb, hds]
    · simp [provisionSteps, hdup, hput, h, hkb, hds]
  · constructor
    · simp [provisionSteps, hdup, hput, h1, h2, hkb, hds]
    · simp [provisionSteps, hdup, hput, h1, h2, hkb, hds]

/-! Claim theorems. -/

/-- C9: for every request whose body is not valid JSON, the handler
returns HTTP 400 with the "Invalid JSON in request body" error message
and performs zero external calls. -/
theorem c9_invalid_json_body (env : Env) (w : World) (now : String) :
    lambda_handler env w .invalid now
      = (errorResponse 400 "Invalid JSON in request body", []) := rfl

/-- C8: end-to-end scenario: body `{"client_id": "Acme-01"}` with all
external calls succeeding normalizes the identifier to `acme-01`,
writes the storage marker under prefix `acme-01/`, creates index
`acme-01_index`, knowledge base `kb-acme-01`, a data source scoped to
prefix `acme-01/`, and returns HTTP 200 with `success: true`,
`client_id "acme-01"`, `opensearch_index "acme-01_index"` and
`status "created"`. -/
theorem c8_end_to_end_success :
    lambda_handler fullEnv okWorld (.parsed (.obj [("client_id", .str "Acme-01")]))
        "2025-01-01 00:00:00 UTC"
      = ({ statusCode := 200, headers := corsHeaders,
           body := .obj
             [("success", .bool true),
              ("message", .str "Knowledge Base successfully created for client acme-01"),
              ("kb_id", .str "KB123XYZ"),
              ("data_source_id", .str "DS456XYZ"),
              ("client_id", .str "acme-01"),
              ("s3_bucket", .str "rag-documents"),
              ("s3_folder", .str "acme-01/"),
              ("s3_console_url", .str "https://s3.console.aws.amazon.com/s3/buckets/rag-documents?region=us-east-1&prefix=acme-01/"),
              ("opensearch_index", .str "acme-01_index"),
              ("status", .str "created"),
              ("timestamp", .str "2025-01-01 00:00:00 UTC"),
              ("next_steps", .arr
                [.str "1. Upload documents to: s3://rag-documents/acme-01/",
                 .str "2. Or use AWS Console: https://s3.console.aws.amazon.com/s3/buckets/rag-documents?region=us-east-1&prefix=acme-01/",
                 .str "3. Use POST /admin/sync-kb with kb_id to process documents",
                 .str "4. Query your knowledge base with POST /query"])] },
         [.listKnowledgeBases,
          .putObject "rag-documents" "acme-01/README.md"
            "# Knowledge Base para acme-01" "text/markdown",
          .indexExists "acme-01_index",
          .createIndex "acme-01_index" indexSchema,
          .createKnowledgeBase "kb-acme-01"
            "Knowledge Base para cliente acme-01 - RAG Multi-tenant Demo"
            "arn:aws:iam::123456789012:role/kb-role"
            "arn:aws:bedrock:us-east-1::foundation-model/amazon.titan-embed-text-v1"
            "arn:aws:aoss:us-east-1:123456789012:collection/abc"
            "acme-01_index",
          .createDataSource "KB123XYZ" "s3-datasource-acme-01"
            "S3 data source para acme-01 - carpeta acme-01/"
            "arn:aws:s3:::rag-documents" ["acme-01/"]]) := rfl

/-- C5: for every tenant identifier whose normalized form (lower-cased,
trimmed) is empty or shorter than 2 characters, the handler returns the
HTTP 400 minimum-length validation error and performs zero external
calls. -/
theorem c5_short_identifier (env : Env) (w : World) (raw now : String)
    (hlen : (pyStrip (pyLower raw)).length < 2) :
    lambda_handler env w (.parsed (.obj [("client_id", .str raw)])) now
      = (errorResponse 400 "client_id must be at least 2 characters long", []) := by
  have h : decide ((pyStrip (pyLower raw)).length < 2) = true := decide_eq_true hlen
  simp [lambda_handler, jsonGetItem, h]

/-- C5 witness: input `"a"` is rejected with the minimum-length
message and an empty call trace. -/
theorem c5_short_identifier_witness :
    lambda_handler fullEnv okWorld (.parsed (.obj [("client_id", .str "a")])) "ts"
      = (errorResponse 400 "client_id must be at least 2 characters long", []) :=
  c5_short_identifier fullEnv okWorld "a" "ts" (by decide)

/-- C3 counterexample: with `OPENSEARCH_COLLECTION_ARN` absent from
the environment and an otherwise valid request, the handler returns
status 400 (the `KeyError` handler), not a 500-class error as the
claim states — though the message does name the missing variable. -/
theorem c3_counterexample_missing_env_gives_400 :
    (lambda_handler envMissingCollectionArn okWorld
        (.parsed (.obj [("client_id", .str "acme")])) "ts").1
      = errorResponse 400 "Missing required field: 'OPENSEARCH_COLLECTION_ARN'"
    ∧ ¬ (500 ≤ (lambda_handler envMissingCollectionArn okWorld
        (.parsed (.obj [("client_id", .str "acme")])) "ts").1.statusCode) :=
  ⟨rfl, by decide⟩

/-- C3 amended: for every request that passes input validation and
whose environment lacks a required configuration value, the handler
returns HTTP 400 (via the `KeyError` handler) with a message naming
the first missing variable in read order, and performs zero external
calls. -/
theorem c3_missing_env_var (env : Env) (w : World) (raw now name : String)
    (hlen : 2 ≤ (pyStrip (pyLower raw)).length)
    (halnum : pyIsAlnum (stripHyphensUnderscores (pyStrip (pyLower raw))) = true)
    (hmiss : Env.read env = .error name) :
    lambda_handler env w (.parsed (.obj [("client_id", .str raw)])) now
      = (errorResponse 400 ("Missing required field: '" ++ name ++ "'"), []) := by
  have hne : (pyStrip (pyLower raw) == "") = false := by
    rw [beq_eq_false_iff_ne]
    intro h
    rw [h] at hlen
    exact absurd hlen (by decide)
  have hlt : decide ((pyStrip (pyLower raw)).length < 2) = false := by
    simp only [decide_eq_false_iff_not]
    omega
  simp [lambda_handler, jsonGetItem, hne, hlt, halnum, hmiss]

/-- C3 amended witness: missing `OPENSEARCH_COLLECTION_ARN` with a
valid request body yields the 400 response naming it, no calls made. -/
theorem c3_missing_env_var_witness :
    lambda_handler envMissingCollectionArn okWorld
        (.parsed (.obj [("client_id", .str "acme")])) "ts"
      = (errorResponse 400 ("Missing required field: '"
          ++ "OPENSEARCH_COLLECTION_ARN" ++ "'"), []) :=
  c3_missing_env_var envMissingCollectionArn okWorld "acme" "ts"
    "OPENSEARCH_COLLECTION_ARN" (by decide) rfl rfl

/-- C4 counterexample: the normalized identifier `"ññ"` consists of
characters outside `[a-z0-9_-]`, yet CPython's Unicode `isalnum`
accepts it: the handler proceeds to a successful provisioning run
(HTTP 200) with six external calls, instead of returning the claimed
ValidationError with no external calls. -/
theorem c4_counterexample_unicode_accepted :
    (lambda_handler fullEnv okWorld
        (.parsed (.obj [("client_id", .str "ññ")])) "ts").1.statusCode = 200
    ∧ (lambda_handler fullEnv okWorld
        (.parsed (.obj [("client_id", .str "ññ")])) "ts").2.length = 6 :=
  ⟨rfl, rfl⟩

/-- C10 counterexample: the body `[]` is valid JSON lacking a
`client_id` key, but subscripting a list with a string raises
`TypeError`, so the generic handler returns HTTP 500, not the claimed
400 "Missing required field" response. -/
theorem c10_counterexample_array_body :
    lambda_handler fullEnv okWorld (.parsed (.arr [])) "ts"
      = (errorResponse 500 ("Internal server error: " ++ typeErrorMsg), []) := rfl

/-- C10 amended: for every request whose body is a valid JSON object
lacking the `client_id` key, the handler returns HTTP 400 with message
`Missing required field: 'client_id'` and performs zero external
calls (valid non-object JSON bodies instead raise `TypeError` and
return HTTP 500). -/
theorem c10_object_without_client_id (env : Env) (w : World) (now : String)
    (kvs : List (String × Json))
    (h : kvs.reverse.find? (fun p => p.fst == "client_id") = none) :
    lambda_handler env w (.parsed (.obj kvs)) now
      = (errorResponse 400 "Missing required field: 'client_id'", []) := by
  simp [lambda_handler, jsonGetItem, h]

/-- C10 amended witness: a JSON object with only an unrelated key is
rejected with the missing-field message and an empty call trace. -/
theorem c10_object_without_client_id_witness :
    lambda_handler fullEnv okWorld (.parsed (.obj [("other", Json.str "x")])) "ts"
      = (errorResponse 400 "Missing required field: 'client_id'", []) :=
  c10_object_without_client_id fullEnv okWorld "ts" [("other", Json.str "x")] rfl

/-- C1: whenever knowledge-base creation succeeds and the subsequent
data-source registration fails, the handler deletes the knowledge base
it just created (the delete is the last external call before
returning) and returns the 500 data-source error; the outcome of the
compensating delete does not change the returned response. -/
theorem c1_ds_failure_deletes_kb (env : Env) (cfg : EnvVals) (w : World)
    (raw now kb_id msg : String)
    (hlen : 2 ≤ (pyStrip (pyLower raw)).length)
    (halnum : pyIsAlnum (stripHyphensUnderscores (pyStrip (pyLower raw))) = true)
    (henv : Env.read env = .ok cfg)
    (hdup : dupHit w (pyStrip (pyLower raw)) = none)
    (hput : w.putObject = .ok ())
    (hidx : w.indexExists = .ok true
      ∨ (w.indexExists = .ok false ∧ w.createIndex = .ok ()))
    (hkb : w.createKnowledgeBase = .ok kb_id)
    (hds : w.createDataSource = .error msg) :
    (lambda_handler env w (.parsed (.obj [("client_id", .str raw)])) now).1
        = errorResponse 500 ("Failed to create Data Source: " ++ msg)
    ∧ (lambda_handler env w (.parsed (.obj [("client_id", .str raw)])) now).2.getLast?
        = some (.deleteKnowledgeBase kb_id)
    ∧ ∀ d : Except String Unit,
        (lambda_handler env { w with deleteKnowledgeBase := d }
            (.parsed (.obj [("client_id", .str raw)])) now).1
          = errorResponse 500 ("Failed to create Data Source: " ++ msg) := by
  refine ⟨?_, ?_, ?_⟩
  · rw [handler_valid_run env cfg w raw now hlen halnum henv]
    exact (provisionSteps_ds_failure cfg w _ now kb_id msg hdup hput hidx hkb hds).1
  · rw [handler_valid_run env cfg w raw now hlen halnum henv]
    exact (provisionSteps_ds_failure cfg w _ now kb_id msg hdup hput hidx hkb hds).2
  · intro d
    rw [handler_valid_run env cfg _ raw now hlen halnum henv]
    exact (provisionSteps_ds_failure cfg _ _ now kb_id msg hdup hput hidx hkb hds).1

/-- C1 witness: with everything up to data-source creation succeeding
and that step failing, the concrete run returns the 500 data-source
error and ends its trace with the delete of the created knowledge
base. -/
theorem c1_ds_failure_deletes_kb_witness :
    (lambda_handler fullEnv dsFailWorld
        (.parsed (.obj [("client_id", .str "acme")])) "ts").1
      = errorResponse 500 ("Failed to create Data Source: " ++ "boom")
    ∧ (lambda_handler fullEnv dsFailWorld
        (.parsed (.obj [("client_id", .str "acme")])) "ts").2.getLast?
      = some (.deleteKnowledgeBase "KB123XYZ") :=
  ⟨(c1_ds_failure_deletes_kb fullEnv fullEnvVals dsFailWorld "acme" "ts" "KB123XYZ" "boom"
      (by decide) rfl rfl rfl rfl (Or.inl rfl) rfl rfl).1,
   (c1_ds_failure_deletes_kb fullEnv fullEnvVals dsFailWorld "acme" "ts" "KB123XYZ" "boom"
      (by decide) rfl rfl rfl rfl (Or.inl rfl) rfl rfl).2.1⟩

/-- C2: when the knowledge-base listing contains a record named
`kb-<normalized id>`, the handler returns HTTP 409 whose body carries
that record's identifier, and the trace is exactly the listing call:
no storage write, index creation, knowledge-base creation or
data-source registration is attempted. -/
theorem c2_duplicate_conflict (env : Env) (cfg : EnvVals) (w : World)
    (raw now : String) (l : List KBSummary) (kb : KBSummary)
    (hlen : 2 ≤ (pyStrip (pyLower raw)).length)
    (halnum : pyIsAlnum (stripHyphensUnderscores (pyStrip (pyLower raw))) = true)
    (henv : Env.read env = .ok cfg)
    (hlist : w.listKnowledgeBases = .ok l)
    (hfind : l.find? (fun s => s.name == "kb-" ++ pyStrip (pyLower raw)) = some kb) :
    lambda_handler env w (.parsed (.obj [("client_id", .str raw)])) now
      = ({ statusCode := 409, headers := corsHeaders,
           body := .obj
             [("error", .str ("Knowledge Base for client \"" ++ pyStrip (pyLower raw)
                 ++ "\" already exists")),
              ("existing_kb_id", .str kb.knowledgeBaseId)] },
         [.listKnowledgeBases]) := by
  rw [handler_valid_run env cfg w raw now hlen halnum henv]
  have hdup : dupHit w (pyStrip (pyLower raw)) = some kb := by
    simp only [dupHit, hlist]
    exact hfind
  simp [provisionSteps, hdup]

/-- C2 witness: provisioning `"acme"` against a registry already
holding `kb-acme` returns 409 with the existing identifier and a
trace of just the listing call. -/
theorem c2_duplicate_conflict_witness :
    lambda_handler fullEnv dupWorld
        (.parsed (.obj [("client_id", .str "acme")])) "ts"
      = ({ statusCode := 409, headers := corsHeaders,
           body := .obj
             [("error", .str "Knowledge Base for client \"acme\" already exists"),
              ("existing_kb_id", .str "KB-OLD")] },
         [.listKnowledgeBases]) :=
  c2_duplicate_conflict fullEnv fullEnvVals dupWorld "acme" "ts"
    [⟨"kb-acme", "KB-OLD"⟩] ⟨"kb-acme", "KB-OLD"⟩ (by decide) rfl rfl rfl rfl

/-- C6: a failure of the duplicate-check listing is non-fatal: the run
is identical to one whose listing succeeded with no matching record,
and in particular the workflow proceeds to the storage step (the
marker write appears in the trace) instead of returning an error for
the listing failure. -/
theorem c6_listing_failure_nonfatal (env : Env) (cfg : EnvVals) (w : World)
    (raw now e : String)
    (hlen : 2 ≤ (pyStrip (pyLower raw)).length)
    (halnum : pyIsAlnum (stripHyphensUnderscores (pyStrip (pyLower raw))) = true)
    (henv : Env.read env = .ok cfg)
    (hlist : w.listKnowledgeBases = .error e) :
    lambda_handler env w (.parsed (.obj [("client_id", .str raw)])) now
      = lambda_handler env { w with listKnowledgeBases := .ok [] }
          (.parsed (.obj [("client_id", .str raw)])) now
    ∧ ExtCall.putObject cfg.s3BucketName
        ((pyStrip (pyLower raw) ++ "/") ++ "README.md")
        ("# Knowledge Base para " ++ pyStrip (pyLower raw)) "text/markdown"
        ∈ (lambda_handler env w (.parsed (.obj [("client_id", .str raw)])) now).2 := by
  have hdup : dupHit w (pyStrip (pyLower raw)) = none := by
    simp [dupHit, hlist]
  have hdup2 : dupHit { w with listKnowledgeBases := .ok [] }
      (pyStrip (pyLower raw)) = none := by
    simp [dupHit]
  rw [handler_valid_run env cfg w raw now hlen halnum henv,
      handler_valid_run env cfg _ raw now hlen halnum henv]
  constructor
  · simp only [provisionSteps, hdup, hdup2]
  · exact putObject_mem_trace cfg w _ now hdup

/-- C6 witness: with the listing call failing and every later call
succeeding, the run equals the empty-listing run and its trace
contains the storage-marker write. -/
theorem c6_listing_failure_nonfatal_witness :
    lambda_handler fullEnv listFailWorld
        (.parsed (.obj [("client_id", .str "acme")])) "ts"
      = lambda_handler fullEnv { listFailWorld with listKnowledgeBases := .ok [] }
          (.parsed (.obj [("client_id", .str "acme")])) "ts"
    ∧ ExtCall.putObject "rag-documents" (("acme" ++ "/") ++ "README.md")
        ("# Knowledge Base para " ++ "acme") "text/markdown"
        ∈ (lambda_handler fullEnv listFailWorld
            (.parsed (.obj [("client_id", .str "acme")])) "ts").2 :=
  c6_listing_failure_nonfatal fullEnv fullEnvVals listFailWorld "acme" "ts"
    "AccessDenied" (by decide) rfl rfl rfl

/-- C7: when the index named `<tenant>_index` already exists, no
index-creation call appears in the trace, and the workflow proceeds to
knowledge-base creation (that call appears in the trace). -/
theorem c7_existing_index_skips_creation (env : Env) (cfg : EnvVals) (w : World)
    (raw now : String)
    (hlen : 2 ≤ (pyStrip (pyLower raw)).length)
    (halnum : pyIsAlnum (stripHyphensUnderscores (pyStrip (pyLower raw))) = true)
    (henv : Env.read env = .ok cfg)
    (hdup : dupHit w (pyStrip (pyLower raw)) = none)
    (hput : w.putObject = .ok ())
    (hex : w.indexExists = .ok true) :
    (∀ (n : String) (b : Json), ExtCall.createIndex n b
        ∉ (lambda_handler env w (.parsed (.obj [("client_id", .str raw)])) now).2)
    ∧ ExtCall.createKnowledgeBase ("kb-" ++ pyStrip (pyLower raw))
        ("Knowledge Base para cliente " ++ pyStrip (pyLower raw)
          ++ " - RAG Multi-tenant Demo")
        cfg.bedrockKbRoleArn
        "arn:aws:bedrock:us-east-1::foundation-model/amazon.titan-embed-text-v1"
        cfg.opensearchCollectionArn (pyStrip (pyLower raw) ++ "_index")
        ∈ (lambda_handler env w (.parsed (.obj [("client_id", .str raw)])) now).2 := by
  rw [handler_valid_run env cfg w raw now hlen halnum henv]
  unfold provisionSteps
  rw [hdup, hput, hex]
  constructor
  · intro n b
    cases hck : w.createKnowledgeBase
    case error => simp
    case ok =>
      cases hcd : w.createDataSource <;> simp
  · cases hck : w.createKnowledgeBase
    case error => simp
    case ok =>
      cases hcd : w.createDataSource <;> simp

/-- C7 witness: with the index already present, the concrete trace
holds the knowledge-base creation call and no index-creation call. -/
theorem c7_existing_index_skips_creation_witness :
    ExtCall.createKnowledgeBase ("kb-" ++ "acme")
        ("Knowledge Base para cliente " ++ "acme" ++ " - RAG Multi-tenant Demo")
        "arn:aws:iam::123456789012:role/kb-role"
        "arn:aws:bedrock:us-east-1::foundation-model/amazon.titan-embed-text-v1"
        "arn:aws:aoss:us-east-1:123456789012:collection/abc" ("acme" ++ "_index")
        ∈ (lambda_handler fullEnv idxExistsWorld
            (.parsed (.obj [("client_id", .str "acme")])) "ts").2
    ∧ ExtCall.createIndex "acme_index" indexSchema
        ∉ (lambda_handler fullEnv idxExistsWorld
            (.parsed (.obj [("client_id", .str "acme")])) "ts").2 :=
  ⟨(c7_existing_index_skips_creation fullEnv fullEnvVals idxExistsWorld "acme" "ts"
      (by decide) rfl rfl rfl rfl rfl).2,
   (c7_existing_index_skips_creation fullEnv fullEnvVals idxExistsWorld "acme" "ts"
      (by decide) rfl rfl rfl rfl rfl).1 "acme_index" indexSchema⟩

/-- C4 amended: for every identifier whose normalized form has length
at least 2 and contains an ASCII character outside `[a-z0-9_-]`, the
handler returns the HTTP 400 invalid-characters error with zero
external calls.  (The restriction to ASCII is forced by the code: the
charset check is CPython's Unicode `isalnum`, which accepts non-ASCII
letters such as `ñ` — see the counterexample.) -/
theorem c4_ascii_invalid_chars_rejected (env : Env) (w : World)
    (raw now : String) (c : Char)
    (hc : c ∈ (pyStrip (pyLower raw)).data)
    (h128 : c.toNat < 128)
    (hbad : ¬ ((97 ≤ c.toNat ∧ c.toNat ≤ 122) ∨ (48 ≤ c.toNat ∧ c.toNat ≤ 57)
        ∨ c = '-' ∨ c = '_'))
    (hlen : 2 ≤ (pyStrip (pyLower raw)).length) :
    lambda_handler env w (.parsed (.obj [("client_id", .str raw)])) now
      = (errorResponse 400
          "client_id can only contain letters, numbers, hyphens and underscores",
         []) := by
  have hup : ¬ (65 ≤ c.toNat ∧ c.toNat ≤ 90) := by
    obtain ⟨c₀, _, hmap⟩ := mem_pyLower (mem_of_mem_pyStrip hc)
    rw [← hmap]
    exact pyLowerChar_not_upper c₀
  have halnum_c : pyIsAlnumChar c = false :=
    pyIsAlnumChar_eq_false c h128 hup (fun h => hbad (Or.inl h))
      (fun h => hbad (Or.inr (Or.inl h)))
  have hne1 : c ≠ '-' := fun h => hbad (Or.inr (Or.inr (Or.inl h)))
  have hne2 : c ≠ '_' := fun h => hbad (Or.inr (Or.inr (Or.inr h)))
  have hcf : c ∈ (stripHyphensUnderscores (pyStrip (pyLower raw))).data := by
    unfold stripHyphensUnderscores
    rw [List.mem_filter]
    exact ⟨hc, by simp [hne1, hne2]⟩
  have hfail : pyIsAlnum (stripHyphensUnderscores (pyStrip (pyLower raw))) = false := by
    cases hall : (stripHyphensUnderscores (pyStrip (pyLower raw))).data.all pyIsAlnumChar
    · simp [pyIsAlnum, hall]
    · exfalso
      rw [List.all_eq_true] at hall
      have := hall c hcf
      rw [halnum_c] at this
      exact Bool.noConfusion this
  have hne : (pyStrip (pyLower raw) == "") = false := by
    rw [beq_eq_false_iff_ne]
    intro h
    rw [h] at hlen
    exact absurd hlen (by decide)
  have hlt : decide ((pyStrip (pyLower raw)).length < 2) = false := by
    simp only [decide_eq_false_iff_not]
    omega
  simp [lambda_handler, jsonGetItem, hne, hlt, hfail]

/-- C4 amended witness: the normalized identifier `"a*"` contains the
ASCII character `*` and is rejected with the invalid-characters
message and an empty call trace. -/
theorem c4_ascii_invalid_chars_rejected_witness :
    lambda_handler fullEnv okWorld (.parsed (.obj [("client_id", .str "a*")])) "ts"
      = (errorResponse 400
          "client_id can only contain letters, numbers, hyphens and underscores",
         []) :=
  c4_ascii_invalid_chars_rejected fullEnv okWorld "a*" "ts" '*'
    (by decide) (by decide) (by decide) (by decide)

end RagApp
